import Mathlib

/-!
Verification of the coordinate-mapping and compositing engine of the
AI-Vehicle-Background-Swap application.

The geometry of the program (contain-fit mapping from render space to native
image space, depth-hint interpolation, composition of the flattened raster) is
embedded over exact rationals, matching the source's arithmetic expressions
verbatim.  Canvas drawing is embedded as the list of draw calls issued against
the output raster, which together with the raster dimensions determines the
raster's pixel content.  The React component state of the application is
embedded as an explicit state record, and the event handlers as functions on
that record.
-/

/-- A point in render-space coordinates (pixels from the render box's
top-left corner), as in `types.ts` (`PinPosition`). -/
structure PinPosition where
  x : ℚ
  y : ℚ

/-- The data delivered by the image uploader, as in `types.ts` (`FileInfo`).
`width` and `height` are optional there. -/
structure FileInfo where
  name : String
  type : String
  size : ℕ
  base64 : String
  width : Option ℚ
  height : Option ℚ

/-- The extracted foreground cutout kept in the application state
(`ExtractedVehicle` in the app component): its source handle and its native
pixel dimensions. -/
structure ExtractedVehicle where
  src : String
  width : ℚ
  height : ℚ

/-- A decoded bitmap (an `Image` whose `naturalWidth`/`naturalHeight` are
available).  The bitmap's pixel content is identified by its source handle. -/
structure Raster where
  naturalWidth : ℚ
  naturalHeight : ℚ
  src : String

/-- One canvas draw call.  `drawImageAt img dx dy` is
`ctx.drawImage(img, dx, dy)`; `drawImageRect img dx dy dw dh` is
`ctx.drawImage(img, dx, dy, dw, dh)` (the source bitmap scaled into the
destination rectangle). -/
inductive DrawOp where
  | drawImageAt (img : Raster) (dx dy : ℚ)
  | drawImageRect (img : Raster) (dx dy dw dh : ℚ)

/-- The composite canvas: its allocated dimensions and the draw calls issued
against it, in order.  Two canvases with the same dimensions and the same
draw list have identical pixel content. -/
structure Canvas where
  width : ℚ
  height : ℚ
  ops : List DrawOp

/-- The four tuning constants of the depth-hint overlay
(`minScale`, `maxScale`, `minRotation`, `maxRotation` in the image-display
component). -/
structure DepthConfig where
  minScale : ℚ
  maxScale : ℚ
  minRotation : ℚ
  maxRotation : ℚ

/-- The default depth-hint constants hard-coded in the image-display
component: `minScale = 0.2`, `maxScale = 1.2`, `minRotation = 20`,
`maxRotation = 75`. -/
def defaultDepthConfig : DepthConfig :=
  { minScale := 1 / 5, maxScale := 6 / 5, minRotation := 20, maxRotation := 75 }

/-- The depth-hint computation of the image-display component, with its
constants abstracted into a `DepthConfig`:
`scale = minScale + (maxScale - minScale) * Math.min(Math.max(relativeY, 0), 1)`
and
`rotation = maxRotation - (maxRotation - minRotation) * relativeY`.
Note that only the scale clamps `relativeY` to `[0, 1]`; the rotation uses
the raw value, exactly as in the source. -/
def estimateDepthWith (cfg : DepthConfig) (relativeY : ℚ) : ℚ × ℚ :=
  (cfg.minScale + (cfg.maxScale - cfg.minScale) * min (max relativeY 0) 1,
   cfg.maxRotation - (cfg.maxRotation - cfg.minRotation) * relativeY)

/-- The depth-hint computation with the hard-coded default constants. -/
def estimateDepth (relativeY : ℚ) : ℚ × ℚ :=
  estimateDepthWith defaultDepthConfig relativeY

/-- The render-space to native-space mapping performed inside `handleGenerate`
(the lines computing `actualRenderedWidth` .. `finalY`): contain-fit size of
the image inside the render box, centering padding, padding subtraction,
normalization without clamping, and scaling to native pixels. -/
def toNativeSpace (vehiclePos : PinPosition)
    (renderedWidth renderedHeight originalWidth originalHeight : ℚ) : ℚ × ℚ :=
  let originalAspect := originalWidth / originalHeight
  let containerAspect := renderedWidth / renderedHeight
  let actualRenderedWidth :=
    if originalAspect > containerAspect then renderedWidth
    else renderedHeight * originalAspect
  let actualRenderedHeight :=
    if originalAspect > containerAspect then renderedWidth / originalAspect
    else renderedHeight
  let paddingX := (renderedWidth - actualRenderedWidth) / 2
  let paddingY := (renderedHeight - actualRenderedHeight) / 2
  let pinXOnImage := vehiclePos.x - paddingX
  let pinYOnImage := vehiclePos.y - paddingY
  let relativeX := pinXOnImage / actualRenderedWidth
  let relativeY := pinYOnImage / actualRenderedHeight
  (relativeX * originalWidth, relativeY * originalHeight)

/-- The specification's own wording of the `toNativeSpace` operation
(spec 4.1, steps 1-6), written independently of the source for the
refinement comparison: the contain-fit rendered size is chosen by the aspect
comparison, padding is centered, the point is shifted, normalized without
clamping, and scaled to native pixels. -/
def toNativeSpaceSpec (p : PinPosition)
    (boxWidth boxHeight nativeWidth nativeHeight : ℚ) : ℚ × ℚ :=
  let nativeAspect := nativeWidth / nativeHeight
  let boxAspect := boxWidth / boxHeight
  let renderedSize :=
    if nativeAspect > boxAspect then (boxWidth, boxWidth / nativeAspect)
    else (boxHeight * nativeAspect, boxHeight)
  let paddingX := (boxWidth - renderedSize.1) / 2
  let paddingY := (boxHeight - renderedSize.2) / 2
  let imgX := p.x - paddingX
  let imgY := p.y - paddingY
  let relX := imgX / renderedSize.1
  let relY := imgY / renderedSize.2
  (relX * nativeWidth, relY * nativeHeight)

/-- The compositing body of `handleGenerate`: allocate a canvas of the
background's native size, draw the background at the origin, map the
render-space anchor to native space, and draw the vehicle scaled by
`vehicleScale` centered on the mapped anchor. -/
def compose (bgImg vehicleImg : Raster) (renderedWidth renderedHeight : ℚ)
    (vehiclePosition : PinPosition) (vehicleScale : ℚ) : Canvas :=
  let final := toNativeSpace vehiclePosition renderedWidth renderedHeight
    bgImg.naturalWidth bgImg.naturalHeight
  let vehicleDrawWidth := vehicleImg.naturalWidth * vehicleScale
  let vehicleDrawHeight := vehicleImg.naturalHeight * vehicleScale
  { width := bgImg.naturalWidth
    height := bgImg.naturalHeight
    ops := [DrawOp.drawImageAt bgImg 0 0,
            DrawOp.drawImageRect vehicleImg
              (final.1 - vehicleDrawWidth / 2) (final.2 - vehicleDrawHeight / 2)
              vehicleDrawWidth vehicleDrawHeight] }

/-- The pair of outputs the system derives from one placement: the cosmetic
depth hint shown by the image-display component (computed from
`pinPosition.y / imgDims.height` and the depth constants) and the composite
canvas produced by `handleGenerate`. -/
def sessionView (cfg : DepthConfig) (bgImg vehicleImg : Raster)
    (renderedWidth renderedHeight : ℚ) (vehiclePosition : PinPosition)
    (vehicleScale : ℚ) : (ℚ × ℚ) × Canvas :=
  (estimateDepthWith cfg (vehiclePosition.y / renderedHeight),
   compose bgImg vehicleImg renderedWidth renderedHeight vehiclePosition vehicleScale)

/-- The application component's state, one field per `useState` hook in the
app component, in source order. -/
structure AppState where
  subjectVehicle : Option FileInfo
  backgroundScene : Option FileInfo
  isExtracting : Bool
  extractedVehicle : Option ExtractedVehicle
  vehiclePosition : Option PinPosition
  vehicleScale : ℚ
  generatedImage : Option String
  isLoading : Bool
  error : Option String

/-- The outcome of one `handleGenerate` invocation: either the guard fired,
an error message was set and nothing further happened, or the composite was
built and handed to the blend service. -/
inductive GenerateResult where
  | failedGuard (message : String)
  | sentToBlend (composite : Canvas)

/-- The error message set by `handleGenerate`'s guard. -/
def generateErrorMessage : String :=
  "Please upload both images and place the vehicle on the scene."

/-- `handleGenerate` as a function of the app state and of the ambient
decoded rasters and rendered background dimensions: the guard
`!extractedVehicle?.src || !backgroundScene || !vehiclePosition` (an empty
`src` string is falsy) sets one generic error and returns; otherwise the
composite is produced and sent to the blend service. -/
def handleGenerate (st : AppState) (bgImg vehicleImg : Raster)
    (renderedWidth renderedHeight : ℚ) : GenerateResult :=
  match st.extractedVehicle, st.backgroundScene, st.vehiclePosition with
  | some v, some _, some pos =>
      if v.src = "" then GenerateResult.failedGuard generateErrorMessage
      else GenerateResult.sentToBlend
        (compose bgImg vehicleImg renderedWidth renderedHeight pos st.vehicleScale)
  | _, _, _ => GenerateResult.failedGuard generateErrorMessage

/-- `handleBackgroundUpload`: store the new background, reset the placement,
clear the previous generation result and error.  Nothing else is touched. -/
def handleBackgroundUpload (fileInfo : FileInfo) (st : AppState) : AppState :=
  { st with backgroundScene := some fileInfo
            vehiclePosition := none
            generatedImage := none
            error := none }

/-- JavaScript `a || b` over an optional number: the fallback is taken when
the value is absent or zero (zero is falsy). -/
def jsOr (a : Option ℚ) (b : ℚ) : ℚ :=
  match a with
  | some v => if v = 0 then b else v
  | none => b

/-- `bgImage?.offsetWidth || container?.offsetWidth || 512` from
`handleSubjectUpload`. -/
def backgroundRenderWidth (bgOffsetWidth containerOffsetWidth : Option ℚ) : ℚ :=
  jsOr bgOffsetWidth (jsOr containerOffsetWidth 512)

/-- The default vehicle scale set after a successful extraction:
`(backgroundRenderWidth / 4) / img.naturalWidth`. -/
def baseScale (bgOffsetWidth containerOffsetWidth : Option ℚ)
    (naturalWidth : ℚ) : ℚ :=
  (backgroundRenderWidth bgOffsetWidth containerOffsetWidth / 4) / naturalWidth

/-- A file object as handed to the uploader (`name`, `type`, `size`). -/
structure FileObject where
  name : String
  type : String
  size : ℕ

/-- JavaScript `t.startsWith('image/')`: character-prefix test on the MIME
type string. -/
def startsWithImage (t : String) : Bool :=
  "image/".data.isPrefixOf t.data

/-- The uploader's `handleFile`: only a file whose MIME type starts with
`image/` is read; its data URL and decoded natural dimensions (ambient
results of the reader and the image decode) are packed into a `FileInfo` for
the `onImageUpload` callback.  Any other file is dropped without any
callback and without any error (`none`). -/
def handleFile (file : FileObject) (base64 : String)
    (naturalWidth naturalHeight : ℚ) : Option FileInfo :=
  if startsWithImage file.type then
    some { name := file.name
           type := file.type
           size := file.size
           base64 := base64
           width := some naturalWidth
           height := some naturalHeight }
  else none

/-- A decoded 1000x500 background raster used in concrete scenarios. -/
def bgRaster : Raster := ⟨1000, 500, "bg-data"⟩

/-- A decoded 200x100 vehicle raster used in concrete scenarios. -/
def vehRaster : Raster := ⟨200, 100, "veh-data"⟩

/-- A background `FileInfo` used in concrete scenarios. -/
def bgFileInfo : FileInfo :=
  ⟨"bg.png", "image/png", 100, "bg-data", some 1000, some 500⟩

/-- An extracted vehicle record used in concrete scenarios. -/
def vehInfo : ExtractedVehicle := ⟨"veh-data", 200, 100⟩

/-- App state with background and extracted vehicle present but no anchor
placed. -/
def stNoAnchor : AppState :=
  ⟨none, some bgFileInfo, false, some vehInfo, none, 1, none, false, none⟩

/-- App state with background and anchor present but no extracted vehicle. -/
def stNoVehicle : AppState :=
  ⟨none, some bgFileInfo, false, none, some ⟨200, 200⟩, 1, none, false, none⟩

/-- C1 counterexample: in the claimed scenario (1000x500 native background in
a 400x400 box), the render-space click at (200, 100) does not map to native
(0, 0); it maps to native (500, 0), the top-center of the image. -/
theorem toNativeSpace_scenario_refuted :
    toNativeSpace ⟨200, 100⟩ 400 400 1000 500 ≠ (0, 0) ∧
    toNativeSpace ⟨200, 100⟩ 400 400 1000 500 = (500, 0) := by
  constructor <;> norm_num [toNativeSpace]

/-- C1 (amended): for nonzero dimensions the render-to-native mapping follows
the contain-fit algorithm exactly as the spec words it (contain-fit size by
aspect comparison, centered padding subtracted, normalization without
clamping, scaling to native pixels); in the 1000x500-in-400x400 scenario the
click at (200, 100) maps to native (500, 0), and the point mapping to native
(0, 0) is (0, 100). -/
theorem toNativeSpace_matches_contain_fit_spec (p : PinPosition)
    (renderedWidth renderedHeight originalWidth originalHeight : ℚ)
    (hrw : 0 < renderedWidth) (hrh : 0 < renderedHeight)
    (hnw : 0 < originalWidth) (hnh : 0 < originalHeight) :
    toNativeSpace p renderedWidth renderedHeight originalWidth originalHeight =
      toNativeSpaceSpec p renderedWidth renderedHeight originalWidth originalHeight ∧
    toNativeSpace ⟨200, 100⟩ 400 400 1000 500 = (500, 0) ∧
    toNativeSpace ⟨0, 100⟩ 400 400 1000 500 = (0, 0) := by
  refine ⟨?_, by norm_num [toNativeSpace], by norm_num [toNativeSpace]⟩
  simp only [toNativeSpace, toNativeSpaceSpec]
  split_ifs <;> rfl

/-- C1 witness: the amended mapping theorem applied at the concrete
1000x500-in-400x400 scenario. -/
theorem toNativeSpace_matches_contain_fit_spec_witness :
    toNativeSpace ⟨200, 100⟩ 400 400 1000 500 =
      toNativeSpaceSpec ⟨200, 100⟩ 400 400 1000 500 ∧
    toNativeSpace ⟨200, 100⟩ 400 400 1000 500 = (500, 0) ∧
    toNativeSpace ⟨0, 100⟩ 400 400 1000 500 = (0, 0) :=
  toNativeSpace_matches_contain_fit_spec ⟨200, 100⟩ 400 400 1000 500
    (by norm_num) (by norm_num) (by norm_num) (by norm_num)

/-- C2: `compose` draws the background at the origin and then the foreground
with draw size (nativeWidth * scale, nativeHeight * scale) and top-left
corner at (anchor - drawSize / 2); hence the drawn rectangle is centered on
the native anchor.  In the concrete scenario (native anchor (500, 250),
foreground 200x100, scale 1) the foreground occupies the native rectangle
with top-left (400, 200) and size (200, 100), i.e. (400,200)-(600,300). -/
theorem compose_centers_vehicle_on_anchor (bgImg vehicleImg : Raster)
    (renderedWidth renderedHeight : ℚ) (pos : PinPosition) (s : ℚ) :
    (compose bgImg vehicleImg renderedWidth renderedHeight pos s).ops =
      [DrawOp.drawImageAt bgImg 0 0,
       DrawOp.drawImageRect vehicleImg
         ((toNativeSpace pos renderedWidth renderedHeight
             bgImg.naturalWidth bgImg.naturalHeight).1
           - vehicleImg.naturalWidth * s / 2)
         ((toNativeSpace pos renderedWidth renderedHeight
             bgImg.naturalWidth bgImg.naturalHeight).2
           - vehicleImg.naturalHeight * s / 2)
         (vehicleImg.naturalWidth * s) (vehicleImg.naturalHeight * s)] ∧
    ((toNativeSpace pos renderedWidth renderedHeight
        bgImg.naturalWidth bgImg.naturalHeight).1
      - vehicleImg.naturalWidth * s / 2) + vehicleImg.naturalWidth * s / 2 =
      (toNativeSpace pos renderedWidth renderedHeight
        bgImg.naturalWidth bgImg.naturalHeight).1 ∧
    ((toNativeSpace pos renderedWidth renderedHeight
        bgImg.naturalWidth bgImg.naturalHeight).2
      - vehicleImg.naturalHeight * s / 2) + vehicleImg.naturalHeight * s / 2 =
      (toNativeSpace pos renderedWidth renderedHeight
        bgImg.naturalWidth bgImg.naturalHeight).2 ∧
    (compose bgRaster vehRaster 400 400 ⟨200, 200⟩ 1).ops =
      [DrawOp.drawImageAt bgRaster 0 0,
       DrawOp.drawImageRect vehRaster 400 200 200 100] := by
  refine ⟨rfl, by ring, by ring, ?_⟩
  norm_num [compose, toNativeSpace, bgRaster, vehRaster]

/-- C3: the composite canvas is allocated at exactly the background's native
dimensions, and those dimensions do not depend on the anchor position or the
user scale. -/
theorem compose_dims_eq_background_native (bgImg vehicleImg : Raster)
    (renderedWidth renderedHeight : ℚ) (pos posB : PinPosition) (s sB : ℚ) :
    (compose bgImg vehicleImg renderedWidth renderedHeight pos s).width =
      bgImg.naturalWidth ∧
    (compose bgImg vehicleImg renderedWidth renderedHeight pos s).height =
      bgImg.naturalHeight ∧
    (compose bgImg vehicleImg renderedWidth renderedHeight pos s).width =
      (compose bgImg vehicleImg renderedWidth renderedHeight posB sB).width ∧
    (compose bgImg vehicleImg renderedWidth renderedHeight pos s).height =
      (compose bgImg vehicleImg renderedWidth renderedHeight posB sB).height :=
  ⟨rfl, rfl, rfl, rfl⟩

/-- C4 counterexample: at `relativeY = 2` the code returns rotation -35,
not the claimed `75 - (75 - 20) * clamp(2) = 20`: the rotation is computed
from the unclamped `relativeY`. -/
theorem estimateDepth_rotation_unclamped :
    (estimateDepth 2).2 = -35 ∧
    (estimateDepth 2).2 ≠ 75 - (75 - 20) * min (max (2 : ℚ) 0) 1 := by
  constructor <;> norm_num [estimateDepth, estimateDepthWith, defaultDepthConfig]

/-- C4 (amended): `estimateDepth` clamps `relativeY` to [0, 1] only for the
scale; the rotation uses the raw value: for every rational `relativeY`,
`estimateDepth relativeY = (0.2 + (1.2 - 0.2) * clamp relativeY,
75 - (75 - 20) * relativeY)`.  The endpoints are exact,
`estimateDepth 0 = (0.2, 75)` and `estimateDepth 1 = (1.2, 20)`, the scale
is monotonically non-decreasing and the rotation monotonically
non-increasing. -/
theorem estimateDepth_amended_props :
    estimateDepth 0 = (1 / 5, 75) ∧
    estimateDepth 1 = (6 / 5, 20) ∧
    (∀ r : ℚ, estimateDepth r =
      (1 / 5 + (6 / 5 - 1 / 5) * min (max r 0) 1, 75 - (75 - 20) * r)) ∧
    (∀ r s : ℚ, r ≤ s →
      (estimateDepth r).1 ≤ (estimateDepth s).1 ∧
      (estimateDepth s).2 ≤ (estimateDepth r).2) := by
  have hf : ∀ t : ℚ, estimateDepth t =
      (1 / 5 + (6 / 5 - 1 / 5) * min (max t 0) 1, 75 - (75 - 20) * t) :=
    fun t => rfl
  refine ⟨by norm_num [estimateDepth, estimateDepthWith, defaultDepthConfig],
          by norm_num [estimateDepth, estimateDepthWith, defaultDepthConfig],
          hf, fun r s h => ?_⟩
  have hm : min (max r 0) 1 ≤ min (max s 0) 1 :=
    min_le_min (max_le_max h le_rfl) le_rfl
  rw [hf r, hf s]
  constructor
  · dsimp only
    linarith
  · dsimp only
    linarith

/-- C4 witness: the monotonicity part of the amended theorem at the
endpoints 0 and 1. -/
theorem estimateDepth_amended_props_witness :
    (estimateDepth 0).1 ≤ (estimateDepth 1).1 ∧
    (estimateDepth 1).2 ≤ (estimateDepth 0).2 :=
  estimateDepth_amended_props.2.2.2 0 1 (by norm_num)

/-- C5: the composite canvas is identical for any two runs that agree on the
rasters, anchor and user scale but use different depth-hint constants; the
depth hint itself does change (exhibited at concrete differing configs), so
the hint is a UI-only output that never reaches the composite. -/
theorem composite_independent_of_depth_config (cfgA cfgB : DepthConfig)
    (bgImg vehicleImg : Raster) (renderedWidth renderedHeight : ℚ)
    (pos : PinPosition) (s : ℚ) :
    (sessionView cfgA bgImg vehicleImg renderedWidth renderedHeight pos s).2 =
      (sessionView cfgB bgImg vehicleImg renderedWidth renderedHeight pos s).2 ∧
    (sessionView ⟨0, 1, 0, 90⟩ bgRaster vehRaster 400 400 ⟨200, 200⟩ 1).1 ≠
      (sessionView defaultDepthConfig bgRaster vehRaster 400 400 ⟨200, 200⟩ 1).1 := by
  refine ⟨rfl, ?_⟩
  norm_num [sessionView, estimateDepthWith, defaultDepthConfig, Prod.mk.injEq]

/-- C6: for nonzero native and box dimensions, the render-box center maps to
the native image center, exactly over the rationals. -/
theorem toNativeSpace_center_to_center
    (renderedWidth renderedHeight originalWidth originalHeight : ℚ)
    (hrw : 0 < renderedWidth) (hrh : 0 < renderedHeight)
    (hnw : 0 < originalWidth) (hnh : 0 < originalHeight) :
    toNativeSpace ⟨renderedWidth / 2, renderedHeight / 2⟩
      renderedWidth renderedHeight originalWidth originalHeight =
      (originalWidth / 2, originalHeight / 2) := by
  have h1 : renderedWidth ≠ 0 := ne_of_gt hrw
  have h2 : renderedHeight ≠ 0 := ne_of_gt hrh
  have h3 : originalWidth ≠ 0 := ne_of_gt hnw
  have h4 : originalHeight ≠ 0 := ne_of_gt hnh
  simp only [toNativeSpace]
  split_ifs with hc
  · rw [Prod.mk.injEq]
    constructor <;> (field_simp; ring)
  · rw [Prod.mk.injEq]
    constructor <;> (field_simp; ring)

/-- C6 witness: the center-to-center theorem at a concrete 1000x500
background in a 400x400 box. -/
theorem toNativeSpace_center_to_center_witness :
    toNativeSpace ⟨400 / 2, 400 / 2⟩ 400 400 1000 500 = (1000 / 2, 500 / 2) :=
  toNativeSpace_center_to_center 400 400 1000 500
    (by norm_num) (by norm_num) (by norm_num) (by norm_num)

/-- C7 counterexample: with no anchor set, and with an anchor but no
extracted foreground, `handleGenerate` fails with the one identical generic
error message; the code does not distinguish a `NoAnchor` error from an
`ImageNotReady` error. -/
theorem handleGenerate_single_generic_error :
    handleGenerate stNoAnchor bgRaster vehRaster 400 400 =
      GenerateResult.failedGuard generateErrorMessage ∧
    handleGenerate stNoVehicle bgRaster vehRaster 400 400 =
      GenerateResult.failedGuard generateErrorMessage ∧
    handleGenerate stNoAnchor bgRaster vehRaster 400 400 =
      handleGenerate stNoVehicle bgRaster vehRaster 400 400 :=
  ⟨rfl, rfl, rfl⟩

/-- C7 (amended): whenever the anchor is unset or the extracted foreground is
missing, `handleGenerate` stops at its guard with the single generic error
message; no composite is produced and the blend service is not called. -/
theorem handleGenerate_guard_blocks_compose (st : AppState)
    (bgImg vehicleImg : Raster) (renderedWidth renderedHeight : ℚ)
    (h : st.vehiclePosition = none ∨ st.extractedVehicle = none) :
    handleGenerate st bgImg vehicleImg renderedWidth renderedHeight =
      GenerateResult.failedGuard generateErrorMessage := by
  obtain ⟨sv, bs, ie, ev, vp, vs, gi, il, er⟩ := st
  cases ev <;> cases bs <;> cases vp <;> simp_all [handleGenerate]

/-- C7 witness: the guard theorem applied to the concrete no-anchor state. -/
theorem handleGenerate_guard_blocks_compose_witness :
    handleGenerate stNoAnchor bgRaster vehRaster 400 400 =
      GenerateResult.failedGuard generateErrorMessage :=
  handleGenerate_guard_blocks_compose stNoAnchor bgRaster vehRaster 400 400
    (Or.inl rfl)

/-- C8: the default placement scale set after extraction makes the scaled
foreground width equal to one quarter of the background's render width. -/
theorem baseScale_gives_quarter_render_width
    (bgOffsetWidth containerOffsetWidth : Option ℚ) (naturalWidth : ℚ)
    (h : naturalWidth ≠ 0) :
    baseScale bgOffsetWidth containerOffsetWidth naturalWidth * naturalWidth =
      backgroundRenderWidth bgOffsetWidth containerOffsetWidth / 4 := by
  simp only [baseScale]
  field_simp
  ring

/-- C8 witness: the quarter-width theorem at a concrete 800-pixel render
width and a 200-pixel-wide foreground. -/
theorem baseScale_gives_quarter_render_width_witness :
    baseScale (some 800) none 200 * 200 =
      backgroundRenderWidth (some 800) none / 4 :=
  baseScale_gives_quarter_render_width (some 800) none 200 (by norm_num)

/-- C9: loading a new background clears the anchor while leaving the
extracted foreground and the user scale untouched (and stores the new
background). -/
theorem handleBackgroundUpload_clears_anchor_keeps_vehicle
    (fileInfo : FileInfo) (st : AppState) :
    (handleBackgroundUpload fileInfo st).vehiclePosition = none ∧
    (handleBackgroundUpload fileInfo st).extractedVehicle = st.extractedVehicle ∧
    (handleBackgroundUpload fileInfo st).vehicleScale = st.vehicleScale ∧
    (handleBackgroundUpload fileInfo st).backgroundScene = some fileInfo :=
  ⟨rfl, rfl, rfl, rfl⟩

/-- C10: the uploader invokes its callback exactly for files whose MIME type
starts with `image/`, delivering the file's metadata and decoded dimensions;
any other file produces no callback and no error. -/
theorem handleFile_accepts_only_image_mime (file : FileObject)
    (base64 : String) (naturalWidth naturalHeight : ℚ) :
    ((handleFile file base64 naturalWidth naturalHeight).isSome ↔
      startsWithImage file.type = true) ∧
    (startsWithImage file.type = false →
      handleFile file base64 naturalWidth naturalHeight = none) ∧
    (startsWithImage file.type = true →
      handleFile file base64 naturalWidth naturalHeight =
        some ⟨file.name, file.type, file.size, base64,
              some naturalWidth, some naturalHeight⟩) := by
  cases h : startsWithImage file.type <;> simp [handleFile, h]

/-- C10 witness: a text file is silently ignored. -/
theorem handleFile_accepts_only_image_mime_witness :
    handleFile ⟨"notes.txt", "text/plain", 3⟩ "data-url" 10 10 = none :=
  (handleFile_accepts_only_image_mime ⟨"notes.txt", "text/plain", 3⟩
    "data-url" 10 10).2.1 (by decide)
